import Mathlib

/-!
Verification of the `openai_compatible_stt` integration (two Python source
files: `stt.py` and `config_flow.py`) against its natural-language
specification.  The Python code is shallowly embedded: dictionaries become
structures with `Option` fields, byte strings become `List Nat`, the
asynchronous chunk stream becomes the list of chunks it yields, the remote
transcription call becomes an explicit outcome parameter, and exceptions
become sum-like results.  Side effects on the filesystem are recorded as an
explicit event trace so that claims about staging-file creation and deletion
can be stated.
-/

namespace OpenAICompatibleSTT

/-- `SpeechResultState` from `homeassistant.components.stt`:
the two result states of a transcription attempt. -/
inductive SpeechResultState where
  | success
  | error
deriving DecidableEq, Repr

/-- `SpeechResult` from `homeassistant.components.stt`:
the pair (text, state) returned by `async_process_audio_stream`. -/
structure SpeechResult where
  text : String
  state : SpeechResultState
deriving DecidableEq, Repr

/-- The fields of `SpeechMetadata` that `async_process_audio_stream` reads:
`metadata.channel`, `metadata.sample_rate`, and `metadata.language`. -/
structure SpeechMetadata where
  language : String
  channel : Nat
  sample_rate : Nat
deriving DecidableEq, Repr

/-- Outcome of the body of the `try:` block after the staging file has been
written: either the awaited remote transcription call yields a text, or some
exception is raised (network error, API error, malformed response, or any
other exception inside the block). -/
inductive RemoteOutcome where
  | ok (text : String)
  | exn
deriving DecidableEq, Repr

/-- Filesystem events performed by one invocation of
`async_process_audio_stream`, recorded in order. -/
inductive FsEvent where
  | createStagingFile
  | deleteStagingFile
  | networkCall
deriving DecidableEq, Repr

/-- Little-endian 16-bit encoding of a natural number (bytes as `Nat`). -/
def le16 (n : Nat) : List Nat :=
  [n % 256, n / 256 % 256]

/-- Little-endian 32-bit encoding of a natural number (bytes as `Nat`). -/
def le32 (n : Nat) : List Nat :=
  [n % 256, n / 256 % 256, n / 65536 % 256, n / 16777216 % 256]

/-- Model of the Python stdlib `wave` module writer: the header bytes
produced by `wave.open(.., "wb")` with `setnchannels nchannels`,
`setsampwidth sampwidth`, `setframerate framerate` and `datalen` bytes of
frames written. Byte values are ASCII codes of "RIFF", "WAVE", "fmt " and
"data" plus the little-endian numeric fields of the canonical WAV header. -/
def wavHeader (nchannels sampwidth framerate datalen : Nat) : List Nat :=
  [82, 73, 70, 70] ++ le32 (36 + datalen) ++
  [87, 65, 86, 69] ++
  [102, 109, 116, 32] ++ le32 16 ++ le16 1 ++
  le16 nchannels ++ le32 framerate ++
  le32 (nchannels * sampwidth * framerate) ++
  le16 (nchannels * sampwidth) ++ le16 (sampwidth * 8) ++
  [100, 97, 116, 97] ++ le32 datalen

/-- Model of the full byte content of the WAV staging file: header followed
by the raw frames. -/
def wavFile (nchannels sampwidth framerate : Nat) (frames : List Nat) : List Nat :=
  wavHeader nchannels sampwidth framerate frames.length ++ frames

/-- The byte of a byte list at an index (0 past the end). -/
def byteAt : List Nat → Nat → Nat
  | [], _ => 0
  | b :: _, 0 => b
  | _ :: rest, n + 1 => byteAt rest n

/-- Read a little-endian 16-bit field of a byte list at an offset. -/
def read16 (bs : List Nat) (off : Nat) : Nat :=
  byteAt bs off + 256 * byteAt bs (off + 1)

/-- Read a little-endian 32-bit field of a byte list at an offset. -/
def read32 (bs : List Nat) (off : Nat) : Nat :=
  byteAt bs off + 256 * byteAt bs (off + 1) +
  65536 * byteAt bs (off + 2) + 16777216 * byteAt bs (off + 3)

/-- Observable trace of one invocation of `async_process_audio_stream`:
the returned `SpeechResult`, the accumulated buffer (`data` in the source),
the bytes written to the staging file (if any), and the filesystem/network
events in order. -/
structure ProcessTrace where
  result : SpeechResult
  buffered : List Nat
  staged : Option (List Nat)
  events : List FsEvent
deriving DecidableEq, Repr

/-- Embedding of `OpenAICompatibleSTTEntity.async_process_audio_stream`
(`stt.py`, lines 129-158).  The chunk stream is the list of chunks it
yields in arrival order; `remote` is the outcome of the `try:` block after
the staging file is written (the awaited transcription call, or any
exception).  `tempfile.NamedTemporaryFile(delete=False, ...)` creates the
staging file; the `finally: os.remove(...)` in the source is commented out,
so no delete event is ever emitted. -/
def async_process_audio_stream (metadata : SpeechMetadata)
    (stream : List (List Nat)) (remote : RemoteOutcome) : ProcessTrace :=
  let data := stream.foldl (fun d chunk => d ++ chunk) []
  if data = [] then
    { result := ⟨"", SpeechResultState.error⟩, buffered := data,
      staged := none, events := [] }
  else
    let staged := wavFile metadata.channel 2 metadata.sample_rate data
    match remote with
    | RemoteOutcome.ok t =>
        { result := ⟨t, SpeechResultState.success⟩, buffered := data,
          staged := some staged,
          events := [FsEvent.createStagingFile, FsEvent.networkCall] }
    | RemoteOutcome.exn =>
        { result := ⟨"", SpeechResultState.error⟩, buffered := data,
          staged := some staged,
          events := [FsEvent.createStagingFile, FsEvent.networkCall] }

/-! ### Config flow (`config_flow.py`) -/

/-- Model of one user-input / persisted-configuration record.  The source
handles these as dictionaries keyed by the constants of `const.py` (not in
`src/`); per the spec's persisted-configuration layout the keys are
`api_key?`, `base_url`, `model`, `unique_id`.  A missing key and a key
stored as Python `None` are both modelled as `none`. -/
structure ConfigData where
  api_key : Option String := none
  base_url : String := "https://api.openai.com/v1/"
  model : Option String := none
  unique_id : Option String := none
deriving DecidableEq, Repr

/-- Python f-string rendering of an optional value: `None` prints as the
string "None", a present string prints as itself. -/
def pyStrOpt : Option String → String
  | none => "None"
  | some s => s

/-- Model of the Python stdlib `urllib.parse`: the characters following the
first `://` separator, i.e. the start of the netloc. `none` when the URL
has no netloc (no `//` after the scheme), in which case `urlparse(...).hostname`
is Python `None`. -/
def findSchemeSep : List Char → Option (List Char)
  | [] => none
  | ':' :: '/' :: '/' :: rest => some rest
  | _ :: rest => findSchemeSep rest

/-- Model of `urllib.parse`: the netloc extends to the first of `/`, `?`, `#`. -/
def takeNetloc (cs : List Char) : List Char :=
  cs.takeWhile (fun c => c ≠ '/' ∧ c ≠ '?' ∧ c ≠ '#')

/-- Model of `urllib.parse`: the host part of a netloc follows the last `@`
(userinfo is stripped). -/
def afterLastAt (cs : List Char) : List Char :=
  (cs.reverse.takeWhile (fun c => c ≠ '@')).reverse

/-- Model of `urllib.parse`: the host part of a netloc stops at the first
`:` (the port is stripped). -/
def beforeColon (cs : List Char) : List Char :=
  cs.takeWhile (fun c => c ≠ ':')

/-- Model of the Python stdlib `urlparse(url).hostname`: the lower-cased
host part of the netloc, or `none` when the URL has no netloc or the host
part is empty. -/
def urlparse_hostname (url : String) : Option String :=
  match findSchemeSep url.toList with
  | none => none
  | some rest =>
    let host := beforeColon (afterLastAt (takeNetloc rest))
    if host = [] then none else some (String.mk (host.map Char.toLower))

/-- Embedding of `generate_unique_id` (`config_flow.py`, lines 21-24):
`f"{urlparse(user_input[CONF_URL]).hostname}_{user_input[CONF_MODEL]}"`.
The `user_input[CONF_MODEL]` dictionary access raises `KeyError` when the
model is absent, modelled as `none`; the flow only calls this after
validation has established the model is present. -/
def generate_unique_id (user_input : ConfigData) : Option String :=
  match user_input.model with
  | none => none
  | some m => some (pyStrOpt (urlparse_hostname user_input.base_url) ++ "_" ++ m)

/-- Result of one `async_step_user` invocation: a created entry (title and
persisted data), an abort with a reason, or a redisplayed form carrying the
error dictionary and the `description_placeholders` (the submitted input). -/
inductive FlowResult where
  | create_entry (title : String) (data : ConfigData)
  | abort (reason : String)
  | show_form (errors : List (String × String)) (placeholders : Option ConfigData)
deriving DecidableEq, Repr

/-- Embedding of `OpenAISTTConfigFlow.async_step_user` (`config_flow.py`,
lines 54-85).  `configured` is the set of unique ids of already configured
instances (`self._abort_if_unique_id_configured` raises `AbortFlow`, caught
and turned into `async_abort(reason="already_configured")`).
`validate_user_input` raises `ValueError("Model is required")` exactly when
`user_input.get(CONF_MODEL) is None`; the `ValueError` handler puts
`str(e)` under the "base" key of the error dictionary.  The `none` branch of
`generate_unique_id` models the broad `except Exception` handler (reached
only on a `KeyError`, impossible after validation) which reports
"unknown_error".  On success, `user_input[UNIQUE_ID] = unique_id` is the
`unique_id := some uid` update and the entry title combines the hostname
and the model. -/
def async_step_user (configured : List String) (user_input : Option ConfigData) :
    FlowResult :=
  match user_input with
  | none => FlowResult.show_form [] none
  | some ui =>
    if ui.model.isNone then
      FlowResult.show_form [("base", "Model is required")] (some ui)
    else
      match generate_unique_id ui with
      | none => FlowResult.show_form [("base", "unknown_error")] (some ui)
      | some uid =>
        if uid ∈ configured then
          FlowResult.abort ("already_configured")
        else
          FlowResult.create_entry
            ("OpenAI Compatible STT (" ++ pyStrOpt (urlparse_hostname ui.base_url) ++
              ", " ++ pyStrOpt ui.model ++ ")")
            { ui with unique_id := some uid }

/-- The host's configuration store: `async_create_entry` appends the new
record; aborting or redisplaying the form leaves the store unchanged. -/
def applyFlowResult (store : List ConfigData) : FlowResult → List ConfigData
  | FlowResult.create_entry _ data => store ++ [data]
  | FlowResult.abort _ => store
  | FlowResult.show_form _ _ => store

/-- The unique ids of the records in the configuration store. -/
def configuredIds (store : List ConfigData) : List String :=
  store.filterMap (fun r => r.unique_id)

/-- One submission against a store: run `async_step_user` with the store's
configured unique ids, then apply its result to the store. -/
def stepAndApply (store : List ConfigData) (user_input : Option ConfigData) :
    FlowResult × List ConfigData :=
  let r := async_step_user (configuredIds store) user_input
  (r, applyFlowResult store r)

/-- Embedding of `OpenAICompatibleSTTEntity.__init__` (`stt.py`, lines
73-76): `_attr_unique_id = config.data.get(UNIQUE_ID)` and, when that is
`None`, the legacy fallback `f"{config.data[CONF_MODEL]}"`. -/
def entity_unique_id (config : ConfigData) : String :=
  match config.unique_id with
  | some uid => uid
  | none => pyStrOpt config.model

/-! ### Helper lemmas -/

/-- `data = b""` then `data += chunk` over the stream accumulates, from any
starting buffer, the concatenation of the chunks in arrival order. -/
theorem foldl_append_eq_flatten (l : List (List Nat)) (acc : List Nat) :
    l.foldl (fun d chunk => d ++ chunk) acc = acc ++ l.flatten := by
  induction l generalizing acc with
  | nil => simp
  | cons hd tl ih => simp [ih]

/-- Unfolding of `wavFile` into header and frames. -/
theorem wavFile_eq (c sw r : Nat) (frames : List Nat) :
    wavFile c sw r frames = wavHeader c sw r frames.length ++ frames := rfl

/-- Bytes 22-23 of a WAV file are the little-endian channel count. -/
theorem byteAt_wav22 (c sw r dl : Nat) (data : List Nat) :
    byteAt (wavHeader c sw r dl ++ data) 22 = c % 256 := by
  simp [wavHeader, le16, le32, byteAt]

theorem byteAt_wav23 (c sw r dl : Nat) (data : List Nat) :
    byteAt (wavHeader c sw r dl ++ data) 23 = c / 256 % 256 := by
  simp [wavHeader, le16, le32, byteAt]

/-- Bytes 24-27 of a WAV file are the little-endian frame rate. -/
theorem byteAt_wav24 (c sw r dl : Nat) (data : List Nat) :
    byteAt (wavHeader c sw r dl ++ data) 24 = r % 256 := by
  simp [wavHeader, le16, le32, byteAt]

theorem byteAt_wav25 (c sw r dl : Nat) (data : List Nat) :
    byteAt (wavHeader c sw r dl ++ data) 25 = r / 256 % 256 := by
  simp [wavHeader, le16, le32, byteAt]

theorem byteAt_wav26 (c sw r dl : Nat) (data : List Nat) :
    byteAt (wavHeader c sw r dl ++ data) 26 = r / 65536 % 256 := by
  simp [wavHeader, le16, le32, byteAt]

theorem byteAt_wav27 (c sw r dl : Nat) (data : List Nat) :
    byteAt (wavHeader c sw r dl ++ data) 27 = r / 16777216 % 256 := by
  simp [wavHeader, le16, le32, byteAt]

/-- Bytes 34-35 of a WAV file are the little-endian bits-per-sample. -/
theorem byteAt_wav34 (c sw r dl : Nat) (data : List Nat) :
    byteAt (wavHeader c sw r dl ++ data) 34 = sw * 8 % 256 := by
  simp [wavHeader, le16, le32, byteAt]

theorem byteAt_wav35 (c sw r dl : Nat) (data : List Nat) :
    byteAt (wavHeader c sw r dl ++ data) 35 = sw * 8 / 256 % 256 := by
  simp [wavHeader, le16, le32, byteAt]

/-- In every branch of `async_process_audio_stream`, the accumulated buffer
is the concatenation of the stream's chunks in arrival order. -/
theorem process_buffered_eq (m : SpeechMetadata) (s : List (List Nat))
    (r : RemoteOutcome) :
    (async_process_audio_stream m s r).buffered = s.flatten := by
  have hfold : s.foldl (fun d chunk => d ++ chunk) [] = s.flatten := by
    simpa using foldl_append_eq_flatten s []
  cases r <;> simp only [async_process_audio_stream, hfold] <;> split <;> rfl

/-- On a non-empty buffer, the staged bytes are the WAV wrapping of the
accumulated buffer, whatever the remote outcome. -/
theorem process_staged_eq (m : SpeechMetadata) (s : List (List Nat))
    (r : RemoteOutcome) (h : s.flatten ≠ []) :
    (async_process_audio_stream m s r).staged
      = some (wavHeader m.channel 2 m.sample_rate s.flatten.length ++ s.flatten) := by
  have hfold : s.foldl (fun d chunk => d ++ chunk) [] = s.flatten := by
    simpa using foldl_append_eq_flatten s []
  cases r <;> simp only [async_process_audio_stream, hfold, wavFile_eq] <;>
    rw [if_neg h]

/-! ### Claims about the transcription entity -/

/-- C1: for every non-empty accumulated audio buffer,
`async_process_audio_stream` returns the pair (transcription text, SUCCESS)
when the remote transcription call succeeds, and returns ("", ERROR) when
any exception is raised during audio processing; being a total function of
the embedded inputs, it never propagates an exception to the caller. -/
theorem process_nonempty_result (m : SpeechMetadata) (s : List (List Nat))
    (h : s.flatten ≠ []) :
    (∀ t, (async_process_audio_stream m s (RemoteOutcome.ok t)).result
        = ⟨t, SpeechResultState.success⟩)
    ∧ (async_process_audio_stream m s RemoteOutcome.exn).result
        = ⟨"", SpeechResultState.error⟩ := by
  have hdata : s.foldl (fun d chunk => d ++ chunk) [] ≠ [] := by
    simpa [foldl_append_eq_flatten] using h
  constructor
  · intro t
    simp [async_process_audio_stream, hdata]
  · simp [async_process_audio_stream, hdata]

/-- Witness for C1 at the stream yielding the single chunk [1]. -/
theorem process_nonempty_result_witness :
    (async_process_audio_stream ⟨"en", 1, 16000⟩ [[1]]
        (RemoteOutcome.ok "hello")).result = ⟨"hello", SpeechResultState.success⟩
    ∧ (async_process_audio_stream ⟨"en", 1, 16000⟩ [[1]]
        RemoteOutcome.exn).result = ⟨"", SpeechResultState.error⟩ :=
  ⟨(process_nonempty_result ⟨"en", 1, 16000⟩ [[1]] (by decide)).1 "hello",
   (process_nonempty_result ⟨"en", 1, 16000⟩ [[1]] (by decide)).2⟩

/-- C2: when the chunks accumulate to an empty byte buffer,
`async_process_audio_stream` returns ("", ERROR) immediately and no network
call to the remote transcription client is made. -/
theorem process_empty_no_network (m : SpeechMetadata) (s : List (List Nat))
    (r : RemoteOutcome) (h : s.flatten = []) :
    (async_process_audio_stream m s r).result = ⟨"", SpeechResultState.error⟩
    ∧ FsEvent.networkCall ∉ (async_process_audio_stream m s r).events := by
  have hdata : s.foldl (fun d chunk => d ++ chunk) [] = [] := by
    simpa [foldl_append_eq_flatten] using h
  simp [async_process_audio_stream, hdata]

/-- Witness for C2 at the empty stream, with a remote that would succeed. -/
theorem process_empty_no_network_witness :
    (async_process_audio_stream ⟨"en", 1, 16000⟩ []
        (RemoteOutcome.ok "hello")).result = ⟨"", SpeechResultState.error⟩
    ∧ FsEvent.networkCall ∉ (async_process_audio_stream ⟨"en", 1, 16000⟩ []
        (RemoteOutcome.ok "hello")).events :=
  process_empty_no_network ⟨"en", 1, 16000⟩ [] (RemoteOutcome.ok "hello") rfl

/-- C6: the chunk stream is consumed to exhaustion and the accumulated
buffer equals exactly the concatenation of the supplied chunks in arrival
order; two invocations with different chunk streams each accumulate exactly
their own chunks (no cross-contamination: each call's buffer is a function
of its own stream alone). -/
theorem buffer_is_chunk_concat (m1 m2 : SpeechMetadata) (r1 r2 : RemoteOutcome)
    (s1 s2 : List (List Nat)) :
    (async_process_audio_stream m1 s1 r1).buffered = s1.flatten
    ∧ (async_process_audio_stream m2 s2 r2).buffered = s2.flatten :=
  ⟨process_buffered_eq m1 s1 r1, process_buffered_eq m2 s2 r2⟩

/-- C9: for every non-empty accumulated buffer, a staging file is created,
and on every exit path (remote success or any exception) no deletion of the
staging file ever happens: `NamedTemporaryFile` is opened with
`delete=False` and the `os.remove` cleanup is commented out. -/
theorem staging_file_created_never_deleted (m : SpeechMetadata)
    (s : List (List Nat)) (h : s.flatten ≠ []) :
    ∀ r : RemoteOutcome,
      FsEvent.createStagingFile ∈ (async_process_audio_stream m s r).events
      ∧ FsEvent.deleteStagingFile ∉ (async_process_audio_stream m s r).events := by
  have hdata : s.foldl (fun d chunk => d ++ chunk) [] ≠ [] := by
    simpa [foldl_append_eq_flatten] using h
  intro r
  cases r <;> simp [async_process_audio_stream, hdata]

/-- Witness for C9 at the stream yielding the single chunk [1], on the
exception exit path. -/
theorem staging_file_created_never_deleted_witness :
    FsEvent.createStagingFile
        ∈ (async_process_audio_stream ⟨"en", 1, 16000⟩ [[1]] RemoteOutcome.exn).events
    ∧ FsEvent.deleteStagingFile
        ∉ (async_process_audio_stream ⟨"en", 1, 16000⟩ [[1]] RemoteOutcome.exn).events :=
  staging_file_created_never_deleted ⟨"en", 1, 16000⟩ [[1]] (by decide) RemoteOutcome.exn

/-- C7: for every non-empty accumulated buffer, the bytes staged for
submission are the raw PCM buffer wrapped in a WAV header whose channel
count (bytes 22-23) and sample rate (bytes 24-27) are those declared in the
request metadata and whose bits-per-sample field (bytes 34-35) is fixed at
16 bits, i.e. a 2-byte sample width. -/
theorem staged_wav_header_fields (m : SpeechMetadata) (s : List (List Nat))
    (r : RemoteOutcome) (h : s.flatten ≠ [])
    (hc : m.channel < 65536) (hr : m.sample_rate < 4294967296) :
    ∃ bytes, (async_process_audio_stream m s r).staged = some bytes
      ∧ bytes = wavHeader m.channel 2 m.sample_rate s.flatten.length ++ s.flatten
      ∧ read16 bytes 22 = m.channel
      ∧ read32 bytes 24 = m.sample_rate
      ∧ read16 bytes 34 = 16 := by
  refine ⟨wavHeader m.channel 2 m.sample_rate s.flatten.length ++ s.flatten,
    process_staged_eq m s r h, rfl, ?_, ?_, ?_⟩
  · simp [read16, byteAt_wav22, byteAt_wav23]
    omega
  · simp [read32, byteAt_wav24, byteAt_wav25, byteAt_wav26, byteAt_wav27]
    omega
  · simp [read16, byteAt_wav34, byteAt_wav35]

/-- Witness for C7 at two bytes of audio, one channel, 16000 Hz. -/
theorem staged_wav_header_fields_witness :
    ∃ bytes, (async_process_audio_stream ⟨"en", 1, 16000⟩ [[0, 0]]
        (RemoteOutcome.ok "hello")).staged = some bytes
      ∧ bytes = wavHeader 1 2 16000 ([[0, 0]] : List (List Nat)).flatten.length
          ++ ([[0, 0]] : List (List Nat)).flatten
      ∧ read16 bytes 22 = 1
      ∧ read32 bytes 24 = 16000
      ∧ read16 bytes 34 = 16 :=
  staged_wav_header_fields ⟨"en", 1, 16000⟩ [[0, 0]] (RemoteOutcome.ok "hello")
    (by decide) (by decide) (by decide)

/-! ### Claims about the config flow -/

/-- Every redisplayed form after a submission carries the submitted input
as its placeholders and a non-empty error dictionary. -/
theorem show_form_cases (configured : List String) (ui : ConfigData)
    (errs : List (String × String)) (ph : Option ConfigData)
    (h : async_step_user configured (some ui) = FlowResult.show_form errs ph) :
    ph = some ui ∧ errs ≠ [] := by
  simp only [async_step_user] at h
  split at h
  · obtain ⟨h1, h2⟩ := FlowResult.show_form.inj h
    exact ⟨h2.symm, by simp [← h1]⟩
  · split at h
    · obtain ⟨h1, h2⟩ := FlowResult.show_form.inj h
      exact ⟨h2.symm, by simp [← h1]⟩
    · split at h
      · exact absurd h (by simp)
      · exact absurd h (by simp)

/-- One flow step preserves distinctness of the configured unique ids:
a created entry's unique id was checked not to be configured already. -/
theorem configuredIds_step_nodup (store : List ConfigData)
    (input : Option ConfigData) (hnd : (configuredIds store).Nodup) :
    (configuredIds (stepAndApply store input).2).Nodup := by
  unfold stepAndApply
  cases input with
  | none => simpa [async_step_user, applyFlowResult]
  | some ui =>
    by_cases hmod : ui.model.isNone = true
    · simpa [async_step_user, hmod, applyFlowResult]
    · cases hgen : generate_unique_id ui with
      | none => simpa [async_step_user, hmod, hgen, applyFlowResult]
      | some uid =>
        by_cases hin : uid ∈ configuredIds store
        · simpa [async_step_user, hmod, hgen, hin, applyFlowResult]
        · have hstep : async_step_user (configuredIds store) (some ui)
              = FlowResult.create_entry
                ("OpenAI Compatible STT (" ++ pyStrOpt (urlparse_hostname ui.base_url) ++
                  ", " ++ pyStrOpt ui.model ++ ")")
                { ui with unique_id := some uid } := by
            simp [async_step_user, hmod, hgen, hin]
          rw [hstep]
          show (configuredIds (store ++ [{ ui with unique_id := some uid }])).Nodup
          rw [show configuredIds (store ++ [{ ui with unique_id := some uid }])
              = configuredIds store ++ [uid] by simp [configuredIds]]
          refine hnd.append (List.nodup_singleton uid) ?_
          intro a ha hb
          simp only [List.mem_singleton] at hb
          exact hin (hb ▸ ha)

/-- C3: the unique identifier derived by the Setup Wizard equals the
hostname parsed from the base URL, followed by "_", followed by the model
string, for every input whose base URL has a hostname and whose model is
present. -/
theorem unique_id_hostname_model (ui : ConfigData) (host m : String)
    (hh : urlparse_hostname ui.base_url = some host) (hm : ui.model = some m) :
    generate_unique_id ui = some (host ++ "_" ++ m) := by
  simp [generate_unique_id, hm, hh, pyStrOpt]

/-- Witness for C3 at the spec's example:
base_url = "https://api.openai.com/v1/", model = "whisper-1" yields
"api.openai.com_whisper-1". -/
theorem unique_id_hostname_model_witness :
    generate_unique_id ⟨none, "https://api.openai.com/v1/", some "whisper-1", none⟩
      = some ("api.openai.com_whisper-1") := by
  have h := unique_id_hostname_model
    ⟨none, "https://api.openai.com/v1/", some "whisper-1", none⟩
    "api.openai.com" "whisper-1" (by decide) rfl
  exact h.trans (by decide)

/-- C4: a submission whose derived unique id matches an already configured
instance aborts with reason "already_configured" and leaves the store
unchanged; moreover any flow step preserves the invariant that the
configured unique ids are pairwise distinct (hence at most one record per
(hostname, model) pair, since equal pairs derive equal unique ids). -/
theorem duplicate_submission_aborts (store : List ConfigData) (ui : ConfigData)
    (uid : String) (hm : generate_unique_id ui = some uid)
    (hdup : uid ∈ configuredIds store) :
    (stepAndApply store (some ui)).1 = FlowResult.abort ("already_configured")
    ∧ (stepAndApply store (some ui)).2 = store
    ∧ ∀ input : Option ConfigData, (configuredIds store).Nodup →
        (configuredIds (stepAndApply store input).2).Nodup := by
  obtain ⟨mdl, hmod⟩ : ∃ mdl, ui.model = some mdl := by
    cases hmodel : ui.model with
    | none => simp [generate_unique_id, hmodel] at hm
    | some mdl => exact ⟨mdl, rfl⟩
  have h1 : async_step_user (configuredIds store) (some ui)
      = FlowResult.abort ("already_configured") := by
    simp [async_step_user, hmod, hm, hdup]
  refine ⟨?_, ?_, ?_⟩
  · simpa [stepAndApply] using h1
  · simp [stepAndApply, h1, applyFlowResult]
  · exact fun input hnd => configuredIds_step_nodup store input hnd

/-- Witness for C4: resubmitting the spec's example against a store already
holding its record aborts and leaves the store unchanged. -/
theorem duplicate_submission_aborts_witness :
    (stepAndApply
        [⟨none, "https://api.openai.com/v1/", some "whisper-1",
          some ("api.openai.com_whisper-1")⟩]
        (some ⟨none, "https://api.openai.com/v1/", some "whisper-1", none⟩)).1
      = FlowResult.abort ("already_configured")
    ∧ (stepAndApply
        [⟨none, "https://api.openai.com/v1/", some "whisper-1",
          some ("api.openai.com_whisper-1")⟩]
        (some ⟨none, "https://api.openai.com/v1/", some "whisper-1", none⟩)).2
      = [⟨none, "https://api.openai.com/v1/", some "whisper-1",
          some ("api.openai.com_whisper-1")⟩]
    ∧ ∀ input : Option ConfigData,
        (configuredIds [⟨none, "https://api.openai.com/v1/", some "whisper-1",
          some ("api.openai.com_whisper-1")⟩]).Nodup →
        (configuredIds (stepAndApply [⟨none, "https://api.openai.com/v1/",
          some "whisper-1", some ("api.openai.com_whisper-1")⟩] input).2).Nodup :=
  duplicate_submission_aborts
    [⟨none, "https://api.openai.com/v1/", some "whisper-1",
      some ("api.openai.com_whisper-1")⟩]
    ⟨none, "https://api.openai.com/v1/", some "whisper-1", none⟩
    "api.openai.com_whisper-1" (by decide) (by decide)

/-- C5 counterexample: a submission whose model field is the empty string
(present but empty) is not rejected by validation; the flow creates a
configuration record instead of failing with a validation error. -/
theorem empty_model_creates_entry :
    async_step_user [] (some ⟨none, "https://api.openai.com/v1/", some "", none⟩)
      = FlowResult.create_entry ("OpenAI Compatible STT (api.openai.com, )")
          ⟨none, "https://api.openai.com/v1/", some "", some ("api.openai.com_")⟩ := by
  decide

/-- C5 (amended): for every submission whose model field is missing (Python
`None`), the wizard fails with the validation error "Model is required",
redisplays the form, and creates no configuration record; a present but
empty-string model is not rejected. -/
theorem missing_model_validation_error (store : List ConfigData)
    (ui : ConfigData) (h : ui.model = none) :
    (stepAndApply store (some ui)).1
        = FlowResult.show_form [("base", "Model is required")] (some ui)
    ∧ (stepAndApply store (some ui)).2 = store := by
  constructor <;> simp [stepAndApply, async_step_user, applyFlowResult, h]

/-- Witness for C5 (amended) at a submission with no model. -/
theorem missing_model_validation_error_witness :
    (stepAndApply [] (some ⟨none, "https://api.openai.com/v1/", none, none⟩)).1
        = FlowResult.show_form [("base", "Model is required")]
            (some ⟨none, "https://api.openai.com/v1/", none, none⟩)
    ∧ (stepAndApply [] (some ⟨none, "https://api.openai.com/v1/", none, none⟩)).2
        = [] :=
  missing_model_validation_error []
    ⟨none, "https://api.openai.com/v1/", none, none⟩ rfl

/-- C8: whenever a submission makes the wizard redisplay the form (any
validation failure other than the duplicate abort), the error dictionary
surfaced to the user is non-empty, the redisplayed form carries the
previously entered values (`description_placeholders` is the submitted
input), and no configuration record is created. -/
theorem redisplay_surfaces_error_retains_input (store : List ConfigData)
    (ui : ConfigData) (errs : List (String × String)) (ph : Option ConfigData)
    (h : async_step_user (configuredIds store) (some ui)
        = FlowResult.show_form errs ph) :
    ph = some ui ∧ errs ≠ [] ∧ (stepAndApply store (some ui)).2 = store := by
  obtain ⟨h1, h2⟩ := show_form_cases (configuredIds store) ui errs ph h
  refine ⟨h1, h2, ?_⟩
  simp [stepAndApply, h, applyFlowResult]

/-- Witness for C8 at a missing-model submission. -/
theorem redisplay_surfaces_error_retains_input_witness :
    (some ⟨none, "https://api.openai.com/v1/", none, none⟩ : Option ConfigData)
        = some ⟨none, "https://api.openai.com/v1/", none, none⟩
    ∧ ([(("base" : String), ("Model is required" : String))]
        : List (String × String)) ≠ []
    ∧ (stepAndApply []
        (some ⟨none, "https://api.openai.com/v1/", none, none⟩)).2 = [] :=
  redisplay_surfaces_error_retains_input []
    ⟨none, "https://api.openai.com/v1/", none, none⟩
    [("base", "Model is required")]
    (some ⟨none, "https://api.openai.com/v1/", none, none⟩) (by decide)

/-- C10: a persisted configuration record that lacks a stored unique id
(a legacy record) gives the entity the model string alone as its unique
identifier, with no hostname component. -/
theorem legacy_unique_id_is_model (config : ConfigData) (m : String)
    (hno : config.unique_id = none) (hm : config.model = some m) :
    entity_unique_id config = m := by
  simp [entity_unique_id, hno, hm, pyStrOpt]

/-- Witness for C10 at a legacy record with model "whisper-1". -/
theorem legacy_unique_id_is_model_witness :
    entity_unique_id ⟨none, "https://api.openai.com/v1/", some "whisper-1", none⟩
      = "whisper-1" :=
  legacy_unique_id_is_model
    ⟨none, "https://api.openai.com/v1/", some "whisper-1", none⟩ "whisper-1" rfl rfl

end OpenAICompatibleSTT
